import Mathlib

/-!
Shallow embedding of the stealth confidential key hand-off program
(src/stealth/program/src/processor.rs) and proofs about its claims.

Accounts are modelled as explicit typed inputs: each program-owned record
is passed together with the metadata (address, owning program, lamports)
of the storage slot holding it.  Each processor entry point becomes a pure
function from its account inputs to `Except ProgramError PostState`, where
the post state collects exactly the pieces of persisted state the entry
point may mutate.  Machine integers (lamports, u64) are Nat with explicit
checked-arithmetic bounds, matching the source's checked_add/checked_sub.

Curve25519/Ristretto points and scalars: the Ristretto group is cyclic of
prime order SCALAR_ORDER, so we model both scalars and group elements as
ZMod SCALAR_ORDER, with scalar multiplication as ring multiplication and
the group identity as 0.  Compressed point encodings are modelled as the
group element itself (compression is injective on valid points); 32-byte
scalar windows of the delegated verifier's input buffer are modelled as
their little-endian Nat value, so that canonical-encoding byte comparisons
are faithfully represented.
-/

deriving instance DecidableEq for Except

namespace Stealth

/-- Addresses (Solana pubkeys) modelled as Nat. -/
abbrev Pubkey := Nat

/-- Order of the Ristretto/Ed25519 prime-order subgroup:
2^252 + 27742317777372353535851937790883648493. -/
def SCALAR_ORDER : Nat := 7237005577332262213973186563042994240857116359379907606001950938285454250989

/-- Scalars modulo the group order. -/
abbrev Scalar := ZMod SCALAR_ORDER

/-- Elements of the prime-order Ristretto group, modelled additively as
ZMod SCALAR_ORDER via a choice of generator; the identity is 0 and
scalar multiplication is ring multiplication. -/
abbrev G := ZMod SCALAR_ORDER

/-- Modelled from the spec: this program's own id (the source's `ID`);
distinct token values stand in for the distinct program addresses. -/
def STEALTH_PROGRAM_ID : Pubkey := 101

/-- Modelled from the spec: the SPL token program id (`spl_token::ID`). -/
def SPL_TOKEN_ID : Pubkey := 102

/-- Modelled from the spec: the offline computation service's program id
(`curve25519_dalek_onchain::ID`). -/
def DALEK_ONCHAIN_ID : Pubkey := 103

/-- Modelled from the spec: the fixed compressed Pedersen base H
(the source's `COMPRESSED_H`); an arbitrary fixed nonzero group element,
since the claims depend only on it being one fixed constant used
identically by both verifier paths. -/
def COMPRESSED_H : G := 2

/-- Modelled from the spec (§6/§9): deterministic record-address
derivation `(domain tag, key parts) -> address`; the source's
`get_stealth_address` is find_program_address over [PREFIX bytes, mint].
The concrete SDK hash is replaced by an injective pairing. -/
def get_stealth_address (mint : Pubkey) : Pubkey :=
  Nat.pair 1 mint

/-- Modelled from the spec (§6/§9): the source's
`get_elgamal_pubkey_address` over [PREFIX bytes, wallet, mint]. -/
def get_elgamal_pubkey_address (wallet mint : Pubkey) : Pubkey :=
  Nat.pair 2 (Nat.pair wallet mint)

/-- Modelled from the spec (§6/§9): the source's
`get_transfer_buffer_address` over [TRANSFER bytes, wallet, mint]. -/
def get_transfer_buffer_address (wallet mint : Pubkey) : Pubkey :=
  Nat.pair 3 (Nat.pair wallet mint)

/-- The one-byte state discriminator leading every record
(state.rs `Key`, modelled from the spec §6). -/
inductive Key
  | Uninitialized
  | StealthAccountV1
  | CipherKeyTransferBufferV1
  | EncryptionKeyBufferV1
deriving DecidableEq

/-- Oversight method tag stored on the Stealth Record; `Invalid` stands
for any other pod byte value (the source's wildcard match arm). -/
inductive OversightMethod
  | None
  | Royalties
  | Freeze
  | Invalid
deriving DecidableEq

/-- Error outcomes of a processor call.  InvalidKeyOrOwner is the
modelled "invalid key/owner" error of the record loaders (state.rs,
spec §4.1); the rest mirror the source's explicit returns. -/
inductive ProgramError
  | InvalidArgument
  | InvalidKeyOrOwner
  | ProofVerificationError
  | Overflow
  | InvalidStealthKey
  | InvalidElgamalPubkeyPDA
  | AccountInUse
  | InsufficientFunds
deriving DecidableEq

/-- Metadata of an account slot: its address, its owning program and its
lamport balance. -/
structure AccountMeta where
  key : Pubkey
  owner : Pubkey
  lamports : Nat
deriving DecidableEq

/-- An ElGamal-style ciphertext: Pedersen commitment (bytes [..32] of the
pod) and decrypt handle (bytes [32..]). -/
structure CipherText where
  commitment : G
  handle : G
deriving DecidableEq

/-- The Stealth Record (state.rs `StealthAccount`, fields as used by
processor.rs). -/
structure StealthAccount where
  key : Key
  mint : Pubkey
  wallet_pk : Pubkey
  elgamal_pk : G
  encrypted_cipher_key : CipherText
  uri : Nat
  method : OversightMethod
  bump_seed : Nat
deriving DecidableEq

/-- The Transfer Buffer (state.rs `CipherKeyTransferBuffer`). -/
structure CipherKeyTransferBuffer where
  key : Key
  stealth_key : Pubkey
  wallet_pk : Pubkey
  elgamal_pk : G
  updated : Bool
  encrypted_cipher_key : CipherText
deriving DecidableEq

/-- The Encryption-Key Registration (state.rs `EncryptionKeyBuffer`). -/
structure EncryptionKeyBuffer where
  key : Key
  owner : Pubkey
  mint : Pubkey
  elgamal_pk : G
deriving DecidableEq

/-- Modelled from the spec (§4.1, state.rs not under src/): the record
loaders' `from_account_info(info, ID, expected_key)` gate asserts that
the storage is owned by the given program and that the record's leading
discriminator equals the expected variant; on mismatch the load fails
with the invalid key/owner error.  The loaders receive no seed material,
so the deterministic-address recomputation happens (only) at call sites
that perform it explicitly. -/
abbrev from_account_info_ok (info : AccountMeta) (recKey : Key)
    (owner : Pubkey) (expected : Key) : Prop :=
  info.owner = owner ∧ recKey = expected

/-- processor.rs `validate_transfer_buffer`: the caller must be the
holder recorded on the Stealth Record, and the buffer must back-reference
the Stealth Record's address. -/
abbrev validate_transfer_buffer_ok (tb : CipherKeyTransferBuffer)
    (st : StealthAccount) (authority stealth_key : Pubkey) : Prop :=
  st.wallet_pk = authority ∧ tb.stealth_key = stealth_key

/-- Equality proof as transmitted (equality_proof.rs pod form, modelled
from the spec §4.2): three auxiliary compressed points and two 32-byte
scalar encodings (their little-endian Nat value). -/
structure EqualityProofBytes where
  Y_0 : G
  Y_1 : G
  Y_2 : G
  sh_1_bytes : Nat
  rh_2_bytes : Nat
deriving DecidableEq

/-- Parsed equality proof (equality_proof.rs `EqualityProof`). -/
structure EqualityProof where
  Y_0 : G
  Y_1 : G
  Y_2 : G
  sh_1 : Scalar
  rh_2 : Scalar
deriving DecidableEq

/-- Modelled from the spec (equality_proof.rs `EqualityProof::from_bytes`,
not under src/): scalar fields must be canonical encodings (value below
the group order); point fields are kept compressed. -/
def EqualityProof.from_bytes (p : EqualityProofBytes) : Option EqualityProof :=
  if p.sh_1_bytes < SCALAR_ORDER ∧ p.rh_2_bytes < SCALAR_ORDER then
    some ⟨p.Y_0, p.Y_1, p.Y_2, (p.sh_1_bytes : Scalar), (p.rh_2_bytes : Scalar)⟩
  else none

/-- Source/destination public keys of a transfer statement
(transfer_proof.rs `TransferPubkeys`). -/
structure TransferPublicKeys where
  src_pubkey : G
  dst_pubkey : G
deriving DecidableEq

/-- The statement plus proof carried by a chunk submission
(transfer_proof.rs `TransferData`): source and destination ciphertexts,
the two public keys, and the equality proof. -/
structure TransferData where
  transfer_public_keys : TransferPublicKeys
  src_cipher_key_chunk_ct : CipherText
  dst_cipher_key_chunk_ct : CipherText
  proof : EqualityProofBytes
deriving DecidableEq

/-- Modelled from the spec (§4.2, transcript.rs not under src/): the
Fiat–Shamir transcript is a deterministic function of the submitted
ciphertexts, public keys and the proof's auxiliary points, producing the
challenge scalar.  It is taken as a parameter; every theorem quantifies
over it, since both verifier paths re-derive it by the same procedure. -/
abbrev ChalFun := TransferData → EqualityProof → Scalar

/-- Modelled from the spec (§4.3, transfer_proof.rs / equality_proof.rs
`verify` not under src/; the slow path's source comment states it checks
the same relations): parse the proof, re-derive the challenge, and check
the three sigma-protocol linear combinations against the identity.  The
combinations follow the source's input-buffer layout comment:
sh_1·P1 − c·H − Y_0, rh_2·P2 − c·D2 − Y_1 and
c·C2 − c·C1 + sh_1·D1 − rh_2·H − Y_2. -/
def TransferProof.verify (chal : ChalFun) (t : TransferData) : Bool :=
  match EqualityProof.from_bytes t.proof with
  | none => false
  | some ep =>
    let c := chal t ep
    let P1 := t.transfer_public_keys.src_pubkey
    let P2 := t.transfer_public_keys.dst_pubkey
    let C1 := t.src_cipher_key_chunk_ct.commitment
    let D1 := t.src_cipher_key_chunk_ct.handle
    let C2 := t.dst_cipher_key_chunk_ct.commitment
    let D2 := t.dst_cipher_key_chunk_ct.handle
    decide (ep.sh_1 * P1 - c * COMPRESSED_H - ep.Y_0 = 0) &&
    decide (ep.rh_2 * P2 - c * D2 - ep.Y_1 = 0) &&
    decide (c * C2 - c * C1 + ep.sh_1 * D1 - ep.rh_2 * COMPRESSED_H - ep.Y_2 = 0)

/-- Account inputs of processor.rs `process_transfer_chunk` (and the
record-bearing prefix of the slow variant). -/
structure ChunkAccounts where
  authority : AccountMeta
  authority_signed : Bool
  stealth_info : AccountMeta
  stealth_data : StealthAccount
  transfer_buffer_info : AccountMeta
  transfer_buffer_data : CipherKeyTransferBuffer
deriving DecidableEq

/-- The account/statement gate shared verbatim by processor.rs
`process_transfer_chunk` and `process_transfer_chunk_slow` (their first
halves are line-for-line identical): signer gate, the two record loads,
`validate_transfer_buffer`, the `updated` replay guard, and the three
statement-field matches against the records. -/
def chunk_statement_checks (a : ChunkAccounts) (d : TransferData) :
    Except ProgramError Unit :=
  if ¬ a.authority_signed then .error .InvalidArgument
  else if ¬ from_account_info_ok a.transfer_buffer_info a.transfer_buffer_data.key
      STEALTH_PROGRAM_ID .CipherKeyTransferBufferV1 then .error .InvalidKeyOrOwner
  else if ¬ from_account_info_ok a.stealth_info a.stealth_data.key
      STEALTH_PROGRAM_ID .StealthAccountV1 then .error .InvalidKeyOrOwner
  else if ¬ validate_transfer_buffer_ok a.transfer_buffer_data a.stealth_data
      a.authority.key a.stealth_info.key then .error .InvalidArgument
  else if a.transfer_buffer_data.updated then .error .InvalidArgument
  else if d.transfer_public_keys.src_pubkey ≠ a.stealth_data.elgamal_pk then
    .error .InvalidArgument
  else if d.src_cipher_key_chunk_ct ≠ a.stealth_data.encrypted_cipher_key then
    .error .InvalidArgument
  else if d.transfer_public_keys.dst_pubkey ≠ a.transfer_buffer_data.elgamal_pk then
    .error .InvalidArgument
  else .ok ()

/-- The single mutation both chunk paths perform on success: flip
`updated` and store the re-encrypted ciphertext into the buffer. -/
def chunk_mutation (a : ChunkAccounts) (d : TransferData) :
    CipherKeyTransferBuffer :=
  { a.transfer_buffer_data with
    updated := true,
    encrypted_cipher_key := d.dst_cipher_key_chunk_ct }

/-- processor.rs `process_transfer_chunk` (the fast verifier path):
the shared gate, then direct proof verification, then the buffer
mutation. -/
def process_transfer_chunk (chal : ChalFun) (a : ChunkAccounts)
    (d : TransferData) : Except ProgramError CipherKeyTransferBuffer :=
  match chunk_statement_checks a d with
  | .error e => .error e
  | .ok _ =>
    if ¬ TransferProof.verify chal d then .error .ProofVerificationError
    else .ok (chunk_mutation a d)

/-- Header of the offline computation's result buffer
(curve25519_dalek_onchain `ComputeHeader`, an external collaborator's
layout read by processor.rs): recorded authority, references to the
instruction and input buffers, and the executed instruction count. -/
structure ComputeHeader where
  authority : Pubkey
  instruction_buffer : Pubkey
  input_buffer : Pubkey
  instruction_num : Nat
deriving DecidableEq

/-- The delegated verifier's input buffer, as read by processor.rs past
the dalek header: eleven 32-byte point windows (compressed statement
points), eleven 32-byte scalar windows (kept as raw little-endian Nat
values, so non-canonical encodings stay distinguishable), and the
128-byte expected-output slot that must hold the group-identity
encoding (modelled as a group element compared with 0). -/
structure InputBuffer where
  points : List G
  scalarWindows : List Nat
  identitySlot : G
deriving DecidableEq

/-- Constants of the external computation service consumed by the slow
path: dalek HEADER_SIZE, and the repository's hardcoded
DSL_INSTRUCTION_COUNT / DSL_INSTRUCTION_BYTES (instruction.rs, not under
src/), kept as parameters since the claims depend only on the exact
comparisons made against them. -/
structure SlowEnv where
  headerSize : Nat
  dslCount : Nat
  dslBytes : List Nat
deriving DecidableEq

/-- Account inputs of processor.rs `process_transfer_chunk_slow`: the
same record-bearing accounts as the fast path plus the three external
buffers.  The compute buffer's three multiscalar results (read at fixed
128-byte windows and decoded to points) are modelled as group
elements. -/
structure SlowAccounts where
  base : ChunkAccounts
  instruction_buffer_info : AccountMeta
  instruction_body : List Nat
  input_buffer_info : AccountMeta
  input_data : InputBuffer
  compute_buffer_info : AccountMeta
  compute_header : ComputeHeader
  compute_results : G × G × G
deriving DecidableEq

/-- The eleven statement points the slow path independently derives and
compares against the input buffer's point windows, in the source's fixed
order (processor.rs `expected_pubkeys`). -/
def expected_pubkeys (d : TransferData) (ep : EqualityProof) : List G :=
  [ d.transfer_public_keys.src_pubkey,
    COMPRESSED_H,
    ep.Y_0,
    d.transfer_public_keys.dst_pubkey,
    d.dst_cipher_key_chunk_ct.handle,
    ep.Y_1,
    d.dst_cipher_key_chunk_ct.commitment,
    d.src_cipher_key_chunk_ct.commitment,
    d.src_cipher_key_chunk_ct.handle,
    COMPRESSED_H,
    ep.Y_2 ]

/-- The eleven scalars the slow path expects in the input buffer's scalar
windows, in the source's fixed order (processor.rs `expected_scalars`):
[sh_1, -c, -1, rh_2, -c, -1, c, -c, sh_1, -rh_2, -1]. -/
def expected_scalars (c : Scalar) (ep : EqualityProof) : List Scalar :=
  [ ep.sh_1, -c, -1,
    ep.rh_2, -c, -1,
    c, -c, ep.sh_1, -ep.rh_2, -1 ]

/-- The delegated-computation account cross-checks of
`process_transfer_chunk_slow`, in source order (processor.rs lines
867-906): ownership of the three external buffers, header-size sanity,
compute-header authority and buffer references, expected instruction
count (with the u32 conversion guard, whose failure is the
proof-verification conv_error), and instruction-body byte equality. -/
def dalek_buffer_checks (env : SlowEnv) (a : SlowAccounts) :
    Except ProgramError Unit :=
  if a.instruction_buffer_info.owner ≠ DALEK_ONCHAIN_ID then
    .error .InvalidArgument
  else if a.input_buffer_info.owner ≠ DALEK_ONCHAIN_ID then
    .error .InvalidArgument
  else if a.compute_buffer_info.owner ≠ DALEK_ONCHAIN_ID then
    .error .InvalidArgument
  else if env.headerSize < 128 then .error .InvalidArgument
  else if a.compute_header.authority ≠ a.base.authority.key then
    .error .InvalidArgument
  else if a.compute_header.instruction_buffer ≠ a.instruction_buffer_info.key then
    .error .InvalidArgument
  else if a.compute_header.input_buffer ≠ a.input_buffer_info.key then
    .error .InvalidArgument
  else if ¬ env.dslCount < 2 ^ 32 then .error .ProofVerificationError
  else if a.compute_header.instruction_num ≠ env.dslCount then
    .error .InvalidArgument
  else if a.instruction_body ≠ env.dslBytes then .error .InvalidArgument
  else .ok ()

/-- The proof-content cross-checks of `process_transfer_chunk_slow`, in
source order (processor.rs lines 952-1074): proof parsing, the eleven
point windows, the locally re-derived challenge's scalar windows, the
identity expected-output slot, and the three multiscalar results. -/
def slow_proof_checks (chal : ChalFun) (a : SlowAccounts)
    (d : TransferData) : Except ProgramError Unit :=
  match EqualityProof.from_bytes d.proof with
  | none => .error .ProofVerificationError
  | some ep =>
    if a.input_data.points ≠ expected_pubkeys d ep then
      .error .ProofVerificationError
    else if a.input_data.scalarWindows ≠
        (expected_scalars (chal d ep) ep).map ZMod.val then
      .error .ProofVerificationError
    else if a.input_data.identitySlot ≠ 0 then .error .InvalidArgument
    else if ¬ (a.compute_results.1 = 0 ∧ a.compute_results.2.1 = 0 ∧
        a.compute_results.2.2 = 0) then .error .ProofVerificationError
    else .ok ()

/-- processor.rs `process_transfer_chunk_slow`: the gate shared with the
fast path, then the delegated-computation cross-checks, then the
proof-content cross-checks; on full success the same single buffer
mutation as the fast path. -/
def process_transfer_chunk_slow (env : SlowEnv) (chal : ChalFun)
    (a : SlowAccounts) (d : TransferData) :
    Except ProgramError CipherKeyTransferBuffer :=
  match chunk_statement_checks a.base d with
  | .error e => .error e
  | .ok _ =>
    match dalek_buffer_checks env a with
    | .error e => .error e
    | .ok _ =>
      match slow_proof_checks chal a d with
      | .error e => .error e
      | .ok _ => .ok (chunk_mutation a.base d)

/-- Modelled from the spec (§4.4 and the source's input-layout comment;
the hardcoded DSL program of instruction.rs is not under src/): the
offline computation evaluates three multiscalar multiplications over the
input buffer's windows, grouping points/scalars 0-2, 3-5 and 6-10, with
scalar windows decoded modulo the group order. -/
def dsl_results (ib : InputBuffer) : G × G × G :=
  let pt : Nat → G := fun i => ib.points.getD i 0
  let sc : Nat → G := fun i => ((ib.scalarWindows.getD i 0 : Nat) : G)
  ( sc 0 * pt 0 + sc 1 * pt 1 + sc 2 * pt 2,
    sc 3 * pt 3 + sc 4 * pt 4 + sc 5 * pt 5,
    sc 6 * pt 6 + sc 7 * pt 7 + sc 8 * pt 8 + sc 9 * pt 9 + sc 10 * pt 10 )

/-- The input buffer a correct offline run derives for a given statement
and parsed proof: the expected point windows, the canonical encodings of
the expected scalars, and the identity expected-output slot. -/
def honest_input_buffer (chal : ChalFun) (d : TransferData)
    (ep : EqualityProof) : InputBuffer :=
  { points := expected_pubkeys d ep,
    scalarWindows := (expected_scalars (chal d ep) ep).map ZMod.val,
    identitySlot := 0 }

/-- Largest u64 value; lamport bookkeeping uses checked 64-bit
arithmetic. -/
def U64_MAX : Nat := 2 ^ 64 - 1

/-- The optional token-movement accounts of processor.rs
`process_fini_transfer` (mint, source, destination, token program); the
token/freeze operations themselves are external collaborators and are
modelled as leaving this program's persisted state untouched. -/
structure TokenAccounts where
  mint_info : AccountMeta
  source_info : AccountMeta
  destination_info : AccountMeta
  token_program_info : AccountMeta
deriving DecidableEq

/-- Account inputs of processor.rs `process_fini_transfer`. -/
structure FiniAccounts where
  authority : AccountMeta
  authority_signed : Bool
  stealth_info : AccountMeta
  stealth_data : StealthAccount
  transfer_buffer_info : AccountMeta
  transfer_buffer_data : CipherKeyTransferBuffer
  rest : Option TokenAccounts
deriving DecidableEq

/-- Persisted state a finalize call may touch: the Stealth Record's data
and the caller's and buffer's lamport balances. -/
structure FiniState where
  stealth : StealthAccount
  authority_lamports : Nat
  transfer_buffer_lamports : Nat
deriving DecidableEq

/-- processor.rs `process_fini_transfer`: signer gate, record loads,
transfer-buffer validation, the `updated` guard, then the hand-off:
overwrite the Stealth Record's holder identity, public key and encrypted
secret with the buffer's values; with no token accounts supplied, refuse
under the freeze oversight method, otherwise (and on the token path,
whose thaw/transfer/freeze calls are external and leave this state
untouched) close the buffer, crediting its full balance to the caller
with checked addition. -/
def fini_gate_checks (a : FiniAccounts) : Except ProgramError Unit :=
  if ¬ a.authority_signed then .error .InvalidArgument
  else if ¬ from_account_info_ok a.transfer_buffer_info
      a.transfer_buffer_data.key STEALTH_PROGRAM_ID
      .CipherKeyTransferBufferV1 then .error .InvalidKeyOrOwner
  else if ¬ from_account_info_ok a.stealth_info a.stealth_data.key
      STEALTH_PROGRAM_ID .StealthAccountV1 then .error .InvalidKeyOrOwner
  else if ¬ validate_transfer_buffer_ok a.transfer_buffer_data a.stealth_data
      a.authority.key a.stealth_info.key then .error .InvalidArgument
  else if ¬ a.transfer_buffer_data.updated then .error .InvalidArgument
  else .ok ()

/-- The Stealth Record after the finalize hand-off: holder identity,
encryption public key and encrypted secret overwritten with the
buffer's recorded values; every other field untouched. -/
def fini_stealth_after (a : FiniAccounts) : StealthAccount :=
  { a.stealth_data with
    wallet_pk := a.transfer_buffer_data.wallet_pk,
    elgamal_pk := a.transfer_buffer_data.elgamal_pk,
    encrypted_cipher_key := a.transfer_buffer_data.encrypted_cipher_key }

def process_fini_transfer (a : FiniAccounts) : Except ProgramError FiniState :=
  match fini_gate_checks a with
  | .error e => .error e
  | .ok _ =>
    match a.rest with
    | none =>
      if a.stealth_data.method = OversightMethod.Freeze then
        .error .InvalidArgument
      else if a.authority.lamports + a.transfer_buffer_info.lamports > U64_MAX then
        .error .Overflow
      else .ok ⟨fini_stealth_after a,
        a.authority.lamports + a.transfer_buffer_info.lamports, 0⟩
    | some _tok =>
      if a.authority.lamports + a.transfer_buffer_info.lamports > U64_MAX then
        .error .Overflow
      else .ok ⟨fini_stealth_after a,
        a.authority.lamports + a.transfer_buffer_info.lamports, 0⟩

/-- SPL token account fields read by processor.rs (mint, owner,
amount). -/
structure SplTokenAccount where
  mint : Pubkey
  owner : Pubkey
  amount : Nat
deriving DecidableEq

/-- Rent minimums at the two packed record lengths consumed by
`process_init_transfer` (Rent::minimum_balance at
StealthAccount/CipherKeyTransferBuffer packed lengths). -/
structure Rent where
  stealth_min : Nat
  transfer_buffer_min : Nat
deriving DecidableEq

/-- Account inputs of processor.rs `process_init_transfer`.  The
transfer-buffer slot's pre-state is its lamport balance (a fresh system
account about to be created must hold zero). -/
structure InitAccounts where
  payer : AccountMeta
  payer_signed : Bool
  mint_info : AccountMeta
  token_account_info : AccountMeta
  token_account_data : SplTokenAccount
  stealth_info : AccountMeta
  stealth_data : StealthAccount
  recipient_info : AccountMeta
  recipient_elgamal_info : AccountMeta
  recipient_elgamal_data : EncryptionKeyBuffer
  transfer_buffer_info : AccountMeta
  rent : Rent
deriving DecidableEq

/-- Persisted state an initiate call may touch: the created Transfer
Buffer's data and the buffer/stealth/payer lamport balances. -/
structure InitState where
  transfer_buffer : CipherKeyTransferBuffer
  transfer_buffer_lamports : Nat
  stealth_lamports : Nat
  payer_lamports : Nat
deriving DecidableEq

/-- Zero-initialized Transfer Buffer record, as a freshly created
account's storage reads before its fields are set. -/
def uninitialized_transfer_buffer : CipherKeyTransferBuffer :=
  { key := Key.Uninitialized,
    stealth_key := 0,
    wallet_pk := 0,
    elgamal_pk := 0,
    updated := false,
    encrypted_cipher_key := ⟨0, 0⟩ }

/-- The freshly created Transfer Buffer after `process_init_transfer`
sets its fields: discriminator, back-reference to the Stealth Record,
recipient identity and recipient encryption key; `updated` stays false
and the re-encrypted-secret slot stays empty. -/
def init_fresh_buffer (a : InitAccounts) : CipherKeyTransferBuffer :=
  { uninitialized_transfer_buffer with
    key := Key.CipherKeyTransferBufferV1,
    stealth_key := a.stealth_info.key,
    wallet_pk := a.recipient_info.key,
    elgamal_pk := a.recipient_elgamal_data.elgamal_pk }

/-- processor.rs `process_init_transfer`: signer and ownership gates,
token-account possession checks (right mint, owned by the payer, amount
exactly 1), Stealth Record address recomputation and load, recipient
encryption-key registration address check and load, Transfer Buffer
address recomputation, system create_account (modelled: fails if the
slot already holds lamports, i.e. a buffer already exists, or the payer
lacks the creation balance max(rent,1)), field initialization of the
fresh buffer, and — only under the Royalties oversight method — the
escrow sweep: move everything above the Stealth Record's minimum rent
into the buffer with checked arithmetic. -/
def process_init_transfer (a : InitAccounts) : Except ProgramError InitState :=
  if ¬ a.payer_signed then .error .InvalidArgument
  else if a.mint_info.owner ≠ SPL_TOKEN_ID then .error .InvalidArgument
  else if a.token_account_info.owner ≠ SPL_TOKEN_ID then .error .InvalidArgument
  else if a.stealth_info.owner ≠ STEALTH_PROGRAM_ID then .error .InvalidArgument
  else if a.token_account_data.mint ≠ a.mint_info.key then .error .InvalidArgument
  else if a.token_account_data.owner ≠ a.payer.key then .error .InvalidArgument
  else if a.token_account_data.amount ≠ 1 then .error .InvalidArgument
  else if get_stealth_address a.mint_info.key ≠ a.stealth_info.key then
    .error .InvalidStealthKey
  else if ¬ from_account_info_ok a.stealth_info a.stealth_data.key
      STEALTH_PROGRAM_ID .StealthAccountV1 then .error .InvalidKeyOrOwner
  else if get_elgamal_pubkey_address a.recipient_info.key a.mint_info.key ≠
      a.recipient_elgamal_info.key then .error .InvalidElgamalPubkeyPDA
  else if ¬ from_account_info_ok a.recipient_elgamal_info
      a.recipient_elgamal_data.key STEALTH_PROGRAM_ID
      .EncryptionKeyBufferV1 then .error .InvalidKeyOrOwner
  else if get_transfer_buffer_address a.recipient_info.key a.mint_info.key ≠
      a.transfer_buffer_info.key then .error .InvalidArgument
  else if a.transfer_buffer_info.lamports ≠ 0 then .error .AccountInUse
  else if a.payer.lamports < max a.rent.transfer_buffer_min 1 then
    .error .InsufficientFunds
  else
    let create_lamports := max a.rent.transfer_buffer_min 1
    let payer_after := a.payer.lamports - create_lamports
    if a.stealth_data.method = OversightMethod.Royalties then
      let minimum_rent := max a.rent.stealth_min 1
      if a.stealth_info.lamports < minimum_rent then .error .Overflow
      else
        let paid := a.stealth_info.lamports - minimum_rent
        if paid ≠ 0 then
          if create_lamports + paid > U64_MAX then .error .Overflow
          else .ok ⟨init_fresh_buffer a, create_lamports + paid, minimum_rent,
            payer_after⟩
        else .ok ⟨init_fresh_buffer a, create_lamports,
          a.stealth_info.lamports, payer_after⟩
    else .ok ⟨init_fresh_buffer a, create_lamports,
      a.stealth_info.lamports, payer_after⟩

/-- Modelled from the spec (§5): the host ledger commits an operation's
state all-or-nothing; an error reverts to the prior persisted state. -/
def ledgerCommit {σ : Type} (prior : σ) (r : Except ProgramError σ) : σ :=
  match r with
  | .ok s => s
  | .error _ => prior

/-- Persisted state visible before a finalize call. -/
def fini_prior (a : FiniAccounts) : FiniState :=
  ⟨a.stealth_data, a.authority.lamports, a.transfer_buffer_info.lamports⟩

/-- Persisted state visible before a chunk-submission call. -/
def chunk_prior (a : ChunkAccounts) : CipherKeyTransferBuffer :=
  a.transfer_buffer_data

/-- Persisted state visible before an initiate call (the Transfer Buffer
slot not yet existing reads as zeroed). -/
def init_prior (a : InitAccounts) : InitState :=
  ⟨uninitialized_transfer_buffer, a.transfer_buffer_info.lamports,
    a.stealth_info.lamports, a.payer.lamports⟩

/-- Little-endian value of a byte string, as the 32-byte scalar windows
are read. -/
def leBytesToNat (bs : List Nat) : Nat :=
  bs.foldr (fun b acc => b + 256 * acc) 0

/-- The hardcoded 32-byte `neg_one` constant of
`process_transfer_chunk_slow` (processor.rs lines 1014-1019),
verbatim. -/
def negOneBytes : List Nat :=
  [0xEC, 0xD3, 0xF5, 0x5C, 0x1A, 0x63, 0x12, 0x58,
   0xD6, 0x9C, 0xF7, 0xA2, 0xDE, 0xF9, 0xDE, 0x14,
   0x00, 0x00, 0x00, 0x00, 0x00, 0x00, 0x00, 0x00,
   0x00, 0x00, 0x00, 0x00, 0x00, 0x00, 0x00, 0x10]

instance : NeZero SCALAR_ORDER := ⟨by decide⟩

/-- Slow-path accounts whose three external buffers are correctly
derived for the given statement and proof: honest header (right
authority, right buffer references, full instruction count), the
expected instruction body, the honest input buffer, and compute results
actually produced by the DSL program on that input. -/
def honest_slow_accounts (env : SlowEnv) (chal : ChalFun)
    (base : ChunkAccounts) (iinfo pinfo cinfo : AccountMeta)
    (d : TransferData) (ep : EqualityProof) : SlowAccounts :=
  { base := base,
    instruction_buffer_info := iinfo,
    instruction_body := env.dslBytes,
    input_buffer_info := pinfo,
    input_data := honest_input_buffer chal d ep,
    compute_buffer_info := cinfo,
    compute_header :=
      ⟨base.authority.key, iinfo.key, pinfo.key, env.dslCount⟩,
    compute_results := dsl_results (honest_input_buffer chal d ep) }

/-- Concrete challenge function used for closed evaluations. -/
def exChal : ChalFun := fun _ _ => 0

/-- Concrete trivial proof bytes (all zero; parses, and its relations
hold for the all-zero statement). -/
def exProofBytes : EqualityProofBytes := ⟨0, 0, 0, 0, 0⟩

/-- The parse of `exProofBytes`. -/
def exEq : EqualityProof := ⟨0, 0, 0, 0, 0⟩

/-- Concrete trivial transfer statement. -/
def exTransferData : TransferData :=
  { transfer_public_keys := ⟨0, 0⟩,
    src_cipher_key_chunk_ct := ⟨0, 0⟩,
    dst_cipher_key_chunk_ct := ⟨0, 0⟩,
    proof := exProofBytes }

/-- Concrete Stealth Record: collectible 5, holder wallet 3. -/
def exStealthData : StealthAccount :=
  { key := Key.StealthAccountV1, mint := 5, wallet_pk := 3,
    elgamal_pk := 0, encrypted_cipher_key := ⟨0, 0⟩, uri := 0,
    method := OversightMethod.None, bump_seed := 0 }

/-- Concrete Transfer Buffer for recipient wallet 4, back-referencing
the Stealth Record at its derived address 26. -/
def exBufferData : CipherKeyTransferBuffer :=
  { key := Key.CipherKeyTransferBufferV1, stealth_key := 26,
    wallet_pk := 4, elgamal_pk := 0, updated := false,
    encrypted_cipher_key := ⟨0, 0⟩ }

/-- Concrete chunk accounts with both records at their derived
addresses (get_stealth_address 5 = 26,
get_transfer_buffer_address 4 5 = 844). -/
def exChunkAccounts : ChunkAccounts :=
  { authority := ⟨3, 0, 10⟩, authority_signed := true,
    stealth_info := ⟨26, STEALTH_PROGRAM_ID, 10⟩,
    stealth_data := exStealthData,
    transfer_buffer_info := ⟨844, STEALTH_PROGRAM_ID, 7⟩,
    transfer_buffer_data := exBufferData }

/-- Concrete chunk accounts whose records pass every check the chunk
operations make, yet sit at addresses different from the ones derived
from their declared seeds (stealth at 7 instead of 26, buffer at 9
instead of 844). -/
def exMisplacedAccounts : ChunkAccounts :=
  { authority := ⟨3, 0, 10⟩, authority_signed := true,
    stealth_info := ⟨7, STEALTH_PROGRAM_ID, 10⟩,
    stealth_data := exStealthData,
    transfer_buffer_info := ⟨9, STEALTH_PROGRAM_ID, 7⟩,
    transfer_buffer_data := { exBufferData with stealth_key := 7 } }

/-- Concrete environment constants for the slow path. -/
def exEnv : SlowEnv := ⟨128, 0, []⟩

/-- Concrete slow-path accounts, honestly derived for the trivial
statement and proof. -/
def exSlowAccounts : SlowAccounts :=
  honest_slow_accounts exEnv exChal exChunkAccounts
    ⟨50, DALEK_ONCHAIN_ID, 0⟩ ⟨51, DALEK_ONCHAIN_ID, 0⟩
    ⟨52, DALEK_ONCHAIN_ID, 0⟩ exTransferData exEq

/-- Concrete slow-path accounts with one tampered scalar window (the
challenge-scalar slot holds 1 instead of the transcript's challenge 0)
while every multiscalar result in the compute buffer is the group
identity. -/
def exTamperedSlowAccounts : SlowAccounts :=
  { exSlowAccounts with
    input_data := { exSlowAccounts.input_data with
      scalarWindows := [0, 0, SCALAR_ORDER - 1, 0, 0, SCALAR_ORDER - 1,
        1, 0, 0, 0, SCALAR_ORDER - 1] },
    compute_results := (0, 0, 0) }

/-- Concrete finalize accounts in the Chunk-Verified state. -/
def exFiniAccounts : FiniAccounts :=
  { authority := ⟨3, 0, 10⟩, authority_signed := true,
    stealth_info := ⟨26, STEALTH_PROGRAM_ID, 10⟩,
    stealth_data := exStealthData,
    transfer_buffer_info := ⟨844, STEALTH_PROGRAM_ID, 7⟩,
    transfer_buffer_data := { exBufferData with updated := true },
    rest := none }

/-- Concrete initiate accounts under the Royalties oversight method,
with an escrowed balance of 5 above the Stealth Record's minimum rent
(rent minimums 2 and 3; derived addresses: stealth 26, registration
get_elgamal_pubkey_address 4 5 = 843, buffer 844). -/
def exInitAccounts : InitAccounts :=
  { payer := ⟨3, 0, 100⟩, payer_signed := true,
    mint_info := ⟨5, SPL_TOKEN_ID, 0⟩,
    token_account_info := ⟨6, SPL_TOKEN_ID, 0⟩,
    token_account_data := ⟨5, 3, 1⟩,
    stealth_info := ⟨26, STEALTH_PROGRAM_ID, 7⟩,
    stealth_data := { exStealthData with method := OversightMethod.Royalties },
    recipient_info := ⟨4, 0, 0⟩,
    recipient_elgamal_info := ⟨843, STEALTH_PROGRAM_ID, 1⟩,
    recipient_elgamal_data :=
      ⟨Key.EncryptionKeyBufferV1, 4, 5, 0⟩,
    transfer_buffer_info := ⟨844, 0, 0⟩,
    rent := ⟨2, 3⟩ }

section Lemmas

lemma scalar_cast_val (a : Scalar) : ((a.val : Nat) : G) = a :=
  ZMod.natCast_rightInverse a

/-- A guard of the early-error style succeeds exactly when its condition
is off and the continuation succeeds. -/
lemma guard_ok_iff {α : Type} (c : Prop) [Decidable c] (e : ProgramError)
    (k : Except ProgramError α) (x : α) :
    (if c then Except.error e else k) = .ok x ↔ (¬ c ∧ k = .ok x) := by
  split_ifs <;> simp_all

/-- On honestly derived inputs, the three multiscalar results of the
delegated DSL program are exactly the three sigma-relation combinations
checked by the direct verifier. -/
lemma dsl_results_honest (chal : ChalFun) (d : TransferData)
    (ep : EqualityProof) :
    dsl_results (honest_input_buffer chal d ep) =
      (ep.sh_1 * d.transfer_public_keys.src_pubkey - chal d ep * COMPRESSED_H - ep.Y_0,
       ep.rh_2 * d.transfer_public_keys.dst_pubkey -
         chal d ep * d.dst_cipher_key_chunk_ct.handle - ep.Y_1,
       chal d ep * d.dst_cipher_key_chunk_ct.commitment -
         chal d ep * d.src_cipher_key_chunk_ct.commitment +
         ep.sh_1 * d.src_cipher_key_chunk_ct.handle -
         ep.rh_2 * COMPRESSED_H - ep.Y_2) := by
  simp only [dsl_results, honest_input_buffer, expected_pubkeys,
    expected_scalars, List.map_cons, List.map_nil, List.getD, List.get?,
    Option.getD_some, scalar_cast_val]
  refine Prod.ext ?_ (Prod.ext ?_ ?_) <;> · simp; ring

/-- Success characterization of the shared account/statement gate. -/
lemma chunk_statement_checks_ok_iff (a : ChunkAccounts) (d : TransferData) :
    chunk_statement_checks a d = .ok () ↔
      (a.authority_signed = true ∧
       from_account_info_ok a.transfer_buffer_info a.transfer_buffer_data.key
         STEALTH_PROGRAM_ID .CipherKeyTransferBufferV1 ∧
       from_account_info_ok a.stealth_info a.stealth_data.key
         STEALTH_PROGRAM_ID .StealthAccountV1 ∧
       validate_transfer_buffer_ok a.transfer_buffer_data a.stealth_data
         a.authority.key a.stealth_info.key ∧
       a.transfer_buffer_data.updated = false ∧
       d.transfer_public_keys.src_pubkey = a.stealth_data.elgamal_pk ∧
       d.src_cipher_key_chunk_ct = a.stealth_data.encrypted_cipher_key ∧
       d.transfer_public_keys.dst_pubkey = a.transfer_buffer_data.elgamal_pk) := by
  unfold chunk_statement_checks
  simp only [guard_ok_iff, not_not, ne_eq]
  constructor
  · rintro ⟨h1, h2, h3, h4, h5, h6, h7, h8, -⟩
    simp_all
    tauto
  · rintro ⟨h1, h2, h3, h4, h5, h6, h7, h8⟩
    simp_all
    tauto

/-- Success characterization of the fast chunk path, at the stage
level. -/
lemma chunk_ok_iff (chal : ChalFun) (a : ChunkAccounts) (d : TransferData)
    (b : CipherKeyTransferBuffer) :
    process_transfer_chunk chal a d = .ok b ↔
      (chunk_statement_checks a d = .ok () ∧
       TransferProof.verify chal d = true ∧
       b = chunk_mutation a d) := by
  unfold process_transfer_chunk
  rcases h : chunk_statement_checks a d with e | u
  · simp [h]
  · cases u
    split_ifs with hv
    · simp_all
      exact eq_comm
    · simp_all

/-- Success characterization of the delegated-computation account
cross-checks. -/
lemma dalek_buffer_checks_ok_iff (env : SlowEnv) (a : SlowAccounts) :
    dalek_buffer_checks env a = .ok () ↔
      (a.instruction_buffer_info.owner = DALEK_ONCHAIN_ID ∧
       a.input_buffer_info.owner = DALEK_ONCHAIN_ID ∧
       a.compute_buffer_info.owner = DALEK_ONCHAIN_ID ∧
       128 ≤ env.headerSize ∧
       a.compute_header.authority = a.base.authority.key ∧
       a.compute_header.instruction_buffer = a.instruction_buffer_info.key ∧
       a.compute_header.input_buffer = a.input_buffer_info.key ∧
       env.dslCount < 2 ^ 32 ∧
       a.compute_header.instruction_num = env.dslCount ∧
       a.instruction_body = env.dslBytes) := by
  unfold dalek_buffer_checks
  simp only [guard_ok_iff, not_not, ne_eq, Nat.not_lt]
  constructor
  · rintro ⟨h1, h2, h3, h4, h5, h6, h7, h8, h9, h10, -⟩
    simp_all
  · rintro ⟨h1, h2, h3, h4, h5, h6, h7, h8, h9, h10⟩
    simp_all

/-- Success characterization of the proof-content cross-checks, given
that the submitted proof parses. -/
lemma slow_proof_checks_ok_iff (chal : ChalFun) (a : SlowAccounts)
    (d : TransferData) (ep : EqualityProof)
    (hep : EqualityProof.from_bytes d.proof = some ep) :
    slow_proof_checks chal a d = .ok () ↔
      (a.input_data.points = expected_pubkeys d ep ∧
       a.input_data.scalarWindows =
         (expected_scalars (chal d ep) ep).map ZMod.val ∧
       a.input_data.identitySlot = 0 ∧
       a.compute_results.1 = 0 ∧ a.compute_results.2.1 = 0 ∧
       a.compute_results.2.2 = 0) := by
  unfold slow_proof_checks
  rw [hep]
  simp only [guard_ok_iff, not_not, ne_eq]
  tauto

/-- With an unparseable proof the proof-content stage fails with the
proof-verification error. -/
lemma slow_proof_checks_none (chal : ChalFun) (a : SlowAccounts)
    (d : TransferData) (hep : EqualityProof.from_bytes d.proof = none) :
    slow_proof_checks chal a d = .error .ProofVerificationError := by
  unfold slow_proof_checks
  rw [hep]

/-- Success characterization of the slow chunk path, at the stage
level. -/
lemma slow_ok_iff (env : SlowEnv) (chal : ChalFun) (a : SlowAccounts)
    (d : TransferData) (b : CipherKeyTransferBuffer) :
    process_transfer_chunk_slow env chal a d = .ok b ↔
      (chunk_statement_checks a.base d = .ok () ∧
       dalek_buffer_checks env a = .ok () ∧
       slow_proof_checks chal a d = .ok () ∧
       b = chunk_mutation a.base d) := by
  unfold process_transfer_chunk_slow
  rcases h1 : chunk_statement_checks a.base d with e | u
  · simp [h1]
  · cases u
    rcases h2 : dalek_buffer_checks env a with e | u
    · simp [h2]
    · cases u
      rcases h3 : slow_proof_checks chal a d with e | u
      · simp [h3]
      · cases u
        simp [eq_comm]

/-- Success characterization of the finalize gate. -/
lemma fini_gate_ok_iff (a : FiniAccounts) :
    fini_gate_checks a = .ok () ↔
      (a.authority_signed = true ∧
       from_account_info_ok a.transfer_buffer_info
         a.transfer_buffer_data.key STEALTH_PROGRAM_ID
         .CipherKeyTransferBufferV1 ∧
       from_account_info_ok a.stealth_info a.stealth_data.key
         STEALTH_PROGRAM_ID .StealthAccountV1 ∧
       validate_transfer_buffer_ok a.transfer_buffer_data a.stealth_data
         a.authority.key a.stealth_info.key ∧
       a.transfer_buffer_data.updated = true) := by
  unfold fini_gate_checks
  simp only [guard_ok_iff, not_not, ne_eq]
  constructor
  · rintro ⟨h1, h2, h3, h4, h5, -⟩
    simp_all
    tauto
  · rintro ⟨h1, h2, h3, h4, h5⟩
    simp_all
    tauto

/-- Success characterization of finalize.  The success state is the same
on the bare and token-wrapped paths; the freeze-method restriction only
binds when no token accounts are supplied. -/
lemma fini_ok_iff (a : FiniAccounts) (s : FiniState) :
    process_fini_transfer a = .ok s ↔
      (fini_gate_checks a = .ok () ∧
       (a.rest = none → a.stealth_data.method ≠ OversightMethod.Freeze) ∧
       a.authority.lamports + a.transfer_buffer_info.lamports ≤ U64_MAX ∧
       s = ⟨fini_stealth_after a,
         a.authority.lamports + a.transfer_buffer_info.lamports, 0⟩) := by
  unfold process_fini_transfer
  rcases h1 : fini_gate_checks a with e | u
  · simp [h1]
  · cases u
    rcases hrest : a.rest with _ | tok <;>
      (split_ifs with h2 h3 <;> (simp_all [Nat.not_lt]; try tauto))

/-- When the proof parses and the input buffer's point windows, scalar
windows and identity slot all pass, the proof-content stage reduces to
the compute-results test. -/
lemma slow_proof_checks_eq (chal : ChalFun) (a : SlowAccounts)
    (d : TransferData) (ep : EqualityProof)
    (hep : EqualityProof.from_bytes d.proof = some ep)
    (hpts : a.input_data.points = expected_pubkeys d ep)
    (hws : a.input_data.scalarWindows =
      (expected_scalars (chal d ep) ep).map ZMod.val)
    (hid : a.input_data.identitySlot = 0) :
    slow_proof_checks chal a d =
      if a.compute_results.1 = 0 ∧ a.compute_results.2.1 = 0 ∧
          a.compute_results.2.2 = 0 then .ok ()
      else .error .ProofVerificationError := by
  unfold slow_proof_checks
  rw [hep]
  simp [hpts, hws, hid, ite_not]
  split_ifs <;> first | rfl | tauto

end Lemmas

section Claims

/-- C10: the hardcoded 32-byte neg_one constant of the slow path's
scalar-window check is the canonical little-endian encoding of -1 modulo
the Ed25519/Ristretto group order; accordingly, the expected scalar
windows at the third, sixth and eleventh positions are exactly that
encoding, and a window value equals it precisely when it is a canonical
encoding of the scalar -1. -/
theorem C10_neg_one :
    leBytesToNat negOneBytes = (-1 : Scalar).val ∧
    ((leBytesToNat negOneBytes : Nat) : Scalar) = -1 ∧
    (∀ (c : Scalar) (ep : EqualityProof),
      ((expected_scalars c ep).map ZMod.val).getD 2 0 = leBytesToNat negOneBytes ∧
      ((expected_scalars c ep).map ZMod.val).getD 5 0 = leBytesToNat negOneBytes ∧
      ((expected_scalars c ep).map ZMod.val).getD 10 0 = leBytesToNat negOneBytes) ∧
    (∀ w : Nat,
      w = leBytesToNat negOneBytes ↔ (w < SCALAR_ORDER ∧ (w : Scalar) = -1)) := by
  have hle : leBytesToNat negOneBytes = SCALAR_ORDER - 1 := by decide
  have hval : (-1 : Scalar).val = SCALAR_ORDER - 1 := by decide
  have hcast : ((SCALAR_ORDER - 1 : Nat) : Scalar) = -1 := by decide
  refine ⟨by rw [hle, hval], by rw [hle, hcast], ?_, ?_⟩
  · intro c ep
    refine ⟨?_, ?_, ?_⟩ <;> simp [expected_scalars, hval, hle]
  · intro w
    constructor
    · rintro rfl
      rw [hle]
      exact ⟨by decide, hcast⟩
    · rintro ⟨hlt, hw⟩
      rw [hle]
      have := ZMod.val_cast_of_lt hlt
      rw [hw, hval] at this
      exact this.symm

/-- C2: every failed operation leaves the persisted state observable by
a later call exactly as it was before the call: under the host ledger's
all-or-nothing commit, an errored initiate, chunk submission (fast or
slow) or finalize commits the prior state unchanged. -/
theorem C2_atomic_revert :
    (∀ (a : InitAccounts) (e : ProgramError),
      process_init_transfer a = .error e →
      ledgerCommit (init_prior a) (process_init_transfer a) = init_prior a) ∧
    (∀ (chal : ChalFun) (a : ChunkAccounts) (d : TransferData)
      (e : ProgramError),
      process_transfer_chunk chal a d = .error e →
      ledgerCommit (chunk_prior a) (process_transfer_chunk chal a d) =
        chunk_prior a) ∧
    (∀ (env : SlowEnv) (chal : ChalFun) (a : SlowAccounts) (d : TransferData)
      (e : ProgramError),
      process_transfer_chunk_slow env chal a d = .error e →
      ledgerCommit (chunk_prior a.base) (process_transfer_chunk_slow env chal a d) =
        chunk_prior a.base) ∧
    (∀ (a : FiniAccounts) (e : ProgramError),
      process_fini_transfer a = .error e →
      ledgerCommit (fini_prior a) (process_fini_transfer a) = fini_prior a) := by
  refine ⟨?_, ?_, ?_, ?_⟩
  · intro a e h
    rw [h]
    rfl
  · intro chal a d e h
    rw [h]
    rfl
  · intro env chal a d e h
    rw [h]
    rfl
  · intro a e h
    rw [h]
    rfl

/-- C2 witness: each of the four operations, run on concrete inputs
whose caller did not sign, errors and commits the prior state. -/
theorem C2_atomic_revert_witness :
    ledgerCommit (init_prior { exInitAccounts with payer_signed := false })
      (process_init_transfer { exInitAccounts with payer_signed := false }) =
      init_prior { exInitAccounts with payer_signed := false } ∧
    ledgerCommit (chunk_prior { exChunkAccounts with authority_signed := false })
      (process_transfer_chunk exChal
        { exChunkAccounts with authority_signed := false } exTransferData) =
      chunk_prior { exChunkAccounts with authority_signed := false } ∧
    ledgerCommit (chunk_prior exChunkAccounts)
      (process_transfer_chunk_slow exEnv exChal
        { exSlowAccounts with
          base := { exChunkAccounts with authority_signed := false } }
        exTransferData) =
      chunk_prior exChunkAccounts ∧
    ledgerCommit (fini_prior { exFiniAccounts with authority_signed := false })
      (process_fini_transfer { exFiniAccounts with authority_signed := false }) =
      fini_prior { exFiniAccounts with authority_signed := false } := by
  refine ⟨?_, ?_, ?_, ?_⟩
  · exact C2_atomic_revert.1 _ .InvalidArgument (by decide)
  · exact C2_atomic_revert.2.1 exChal _ exTransferData .InvalidArgument (by decide)
  · exact C2_atomic_revert.2.2.1 exEnv exChal
      { exSlowAccounts with
        base := { exChunkAccounts with authority_signed := false } }
      exTransferData .InvalidArgument (by decide)
  · exact C2_atomic_revert.2.2.2 _ .InvalidArgument (by decide)

/-- C5: chunk submission against a Transfer Buffer whose updated flag
is already set fails, on both the fast and the slow path, and the
committed buffer record (its stored re-encrypted ciphertext included)
is exactly the prior one. -/
theorem C5_updated_guard (chal : ChalFun) (env : SlowEnv) (a : SlowAccounts)
    (d : TransferData) (h : a.base.transfer_buffer_data.updated = true) :
    (∃ e, process_transfer_chunk chal a.base d = .error e) ∧
    (∃ e, process_transfer_chunk_slow env chal a d = .error e) ∧
    ledgerCommit (chunk_prior a.base) (process_transfer_chunk chal a.base d) =
      a.base.transfer_buffer_data ∧
    ledgerCommit (chunk_prior a.base)
      (process_transfer_chunk_slow env chal a d) =
      a.base.transfer_buffer_data := by
  rcases hc : chunk_statement_checks a.base d with e | u
  · refine ⟨⟨e, ?_⟩, ⟨e, ?_⟩, ?_, ?_⟩ <;>
      simp [process_transfer_chunk, process_transfer_chunk_slow, hc,
        ledgerCommit, chunk_prior]
  · exfalso
    cases u
    rcases (chunk_statement_checks_ok_iff a.base d).mp hc with
      ⟨-, -, -, -, hupd, -⟩
    rw [h] at hupd
    exact Bool.noConfusion hupd

/-- C5 witness: on a concrete already-updated buffer, both chunk paths
error and commit the unchanged buffer record. -/
theorem C5_updated_guard_witness :
    (∃ e, process_transfer_chunk exChal
      { exChunkAccounts with
        transfer_buffer_data := { exBufferData with updated := true } }
      exTransferData = .error e) ∧
    (∃ e, process_transfer_chunk_slow exEnv exChal
      { exSlowAccounts with
        base := { exChunkAccounts with
          transfer_buffer_data := { exBufferData with updated := true } } }
      exTransferData = .error e) ∧
    ledgerCommit (chunk_prior { exChunkAccounts with
        transfer_buffer_data := { exBufferData with updated := true } })
      (process_transfer_chunk exChal
        { exChunkAccounts with
          transfer_buffer_data := { exBufferData with updated := true } }
        exTransferData) =
      { exBufferData with updated := true } ∧
    ledgerCommit (chunk_prior { exChunkAccounts with
        transfer_buffer_data := { exBufferData with updated := true } })
      (process_transfer_chunk_slow exEnv exChal
        { exSlowAccounts with
          base := { exChunkAccounts with
            transfer_buffer_data := { exBufferData with updated := true } } }
        exTransferData) =
      { exBufferData with updated := true } :=
  C5_updated_guard exChal exEnv
    { exSlowAccounts with
      base := { exChunkAccounts with
        transfer_buffer_data := { exBufferData with updated := true } } }
    exTransferData (by decide)

/-- C7: finalize on a buffer whose updated flag is still unset fails;
and finalize on a freeze-overseen record without the token-movement
accounts fails. -/
theorem C7_fini_guards :
    (∀ a : FiniAccounts, a.transfer_buffer_data.updated = false →
      ∃ e, process_fini_transfer a = .error e) ∧
    (∀ a : FiniAccounts, a.stealth_data.method = OversightMethod.Freeze →
      a.rest = none → ∃ e, process_fini_transfer a = .error e) := by
  constructor
  · intro a h
    rcases hg : fini_gate_checks a with e | u
    · exact ⟨e, by simp [process_fini_transfer, hg]⟩
    · exfalso
      cases u
      rcases (fini_gate_ok_iff a).mp hg with ⟨-, -, -, -, hupd⟩
      rw [h] at hupd
      exact Bool.noConfusion hupd
  · intro a hm hrest
    rcases hg : fini_gate_checks a with e | u
    · exact ⟨e, by simp [process_fini_transfer, hg]⟩
    · cases u
      exact ⟨.InvalidArgument,
        by simp [process_fini_transfer, hg, hrest, hm]⟩

/-- C7 witness: a concrete not-yet-updated buffer makes finalize error,
and a concrete freeze-overseen record without token accounts makes
finalize error. -/
theorem C7_fini_guards_witness :
    (∃ e, process_fini_transfer
      { exFiniAccounts with transfer_buffer_data := exBufferData } = .error e) ∧
    (∃ e, process_fini_transfer
      { exFiniAccounts with
        stealth_data := { exStealthData with method := OversightMethod.Freeze } } =
      .error e) :=
  ⟨C7_fini_guards.1 _ (by decide), C7_fini_guards.2 _ (by decide) (by decide)⟩

/-- C6: under the preconditions that the buffer is updated, the caller
signs and is the holder recorded on the Stealth Record, and the buffer
back-references this Stealth Record, a successful finalize sets exactly
the Stealth Record's holder identity, encryption public key and
encrypted secret to the buffer's values, leaves the mint, content
locator, oversight method, state discriminator and address-derivation
metadata unchanged, zeroes the buffer's balance and credits it in full
to the caller. -/
theorem C6_fini_frame (a : FiniAccounts) (s : FiniState)
    (_hupd : a.transfer_buffer_data.updated = true)
    (_hsig : a.authority_signed = true)
    (_hholder : a.stealth_data.wallet_pk = a.authority.key)
    (_hback : a.transfer_buffer_data.stealth_key = a.stealth_info.key)
    (hok : process_fini_transfer a = .ok s) :
    s.stealth.wallet_pk = a.transfer_buffer_data.wallet_pk ∧
    s.stealth.elgamal_pk = a.transfer_buffer_data.elgamal_pk ∧
    s.stealth.encrypted_cipher_key = a.transfer_buffer_data.encrypted_cipher_key ∧
    s.stealth.mint = a.stealth_data.mint ∧
    s.stealth.uri = a.stealth_data.uri ∧
    s.stealth.method = a.stealth_data.method ∧
    s.stealth.key = a.stealth_data.key ∧
    s.stealth.bump_seed = a.stealth_data.bump_seed ∧
    s.transfer_buffer_lamports = 0 ∧
    s.authority_lamports = a.authority.lamports + a.transfer_buffer_info.lamports := by
  rcases (fini_ok_iff a s).mp hok with ⟨-, -, -, hs⟩
  subst hs
  simp [fini_stealth_after]

/-- C6 witness: the concrete finalize run overwrites exactly the
hand-off fields, keeps the rest, zeroes the buffer balance and credits
the 7 escrowed lamports plus rent to the caller's 10. -/
theorem C6_fini_frame_witness :
    (⟨fini_stealth_after exFiniAccounts, 17, 0⟩ : FiniState).stealth.wallet_pk =
      exFiniAccounts.transfer_buffer_data.wallet_pk ∧
    (⟨fini_stealth_after exFiniAccounts, 17, 0⟩ : FiniState).stealth.elgamal_pk =
      exFiniAccounts.transfer_buffer_data.elgamal_pk ∧
    (⟨fini_stealth_after exFiniAccounts, 17, 0⟩ : FiniState).stealth.encrypted_cipher_key =
      exFiniAccounts.transfer_buffer_data.encrypted_cipher_key ∧
    (⟨fini_stealth_after exFiniAccounts, 17, 0⟩ : FiniState).stealth.mint =
      exFiniAccounts.stealth_data.mint ∧
    (⟨fini_stealth_after exFiniAccounts, 17, 0⟩ : FiniState).stealth.uri =
      exFiniAccounts.stealth_data.uri ∧
    (⟨fini_stealth_after exFiniAccounts, 17, 0⟩ : FiniState).stealth.method =
      exFiniAccounts.stealth_data.method ∧
    (⟨fini_stealth_after exFiniAccounts, 17, 0⟩ : FiniState).stealth.key =
      exFiniAccounts.stealth_data.key ∧
    (⟨fini_stealth_after exFiniAccounts, 17, 0⟩ : FiniState).stealth.bump_seed =
      exFiniAccounts.stealth_data.bump_seed ∧
    (⟨fini_stealth_after exFiniAccounts, 17, 0⟩ : FiniState).transfer_buffer_lamports = 0 ∧
    (⟨fini_stealth_after exFiniAccounts, 17, 0⟩ : FiniState).authority_lamports =
      exFiniAccounts.authority.lamports +
        exFiniAccounts.transfer_buffer_info.lamports :=
  C6_fini_frame exFiniAccounts ⟨fini_stealth_after exFiniAccounts, 17, 0⟩
    (by decide) (by decide) (by decide) (by decide) (by decide)

/-- C8: under the Royalties oversight method, a successful initiate
with a Stealth Record holding balance E above its minimum rent leaves
the record at exactly minimum rent and the fresh buffer at exactly its
own minimum rent plus E; under any other oversight method a successful
initiate leaves the Stealth Record's balance unchanged.  (Minimum rents
are assumed at least one lamport, as on any real cluster, since account
creation funds max(rent, 1).) -/
theorem C8_royalty_sweep :
    (∀ (a : InitAccounts) (E : Nat) (s : InitState),
      a.stealth_data.method = OversightMethod.Royalties →
      1 ≤ a.rent.stealth_min →
      1 ≤ a.rent.transfer_buffer_min →
      a.stealth_info.lamports = a.rent.stealth_min + E →
      process_init_transfer a = .ok s →
      s.stealth_lamports = a.rent.stealth_min ∧
      s.transfer_buffer_lamports = a.rent.transfer_buffer_min + E) ∧
    (∀ (a : InitAccounts) (s : InitState),
      a.stealth_data.method ≠ OversightMethod.Royalties →
      process_init_transfer a = .ok s →
      s.stealth_lamports = a.stealth_info.lamports) := by
  constructor
  · intro a E s hroyal hmin1 hmin2 hE hok
    unfold process_init_transfer at hok
    simp only [guard_ok_iff] at hok
    obtain ⟨-, -, -, -, -, -, -, -, -, -, -, -, -, -, hrest⟩ := hok
    rw [if_pos hroyal] at hrest
    have hmax1 : max a.rent.stealth_min 1 = a.rent.stealth_min :=
      Nat.max_eq_left hmin1
    have hmax2 : max a.rent.transfer_buffer_min 1 = a.rent.transfer_buffer_min :=
      Nat.max_eq_left hmin2
    rw [hmax1, hmax2, hE] at hrest
    have hpaid : a.rent.stealth_min + E - a.rent.stealth_min = E := by omega
    rw [hpaid] at hrest
    split_ifs at hrest with h1 h2 h3
    · injection hrest with h
      subst h
      exact ⟨rfl, rfl⟩
    · injection hrest with h
      subst h
      rw [not_not] at h2
      subst h2
      exact ⟨by simp, by simp⟩
  · intro a s hm hok
    unfold process_init_transfer at hok
    simp only [guard_ok_iff] at hok
    obtain ⟨-, -, -, -, -, -, -, -, -, -, -, -, -, -, hrest⟩ := hok
    rw [if_neg hm] at hrest
    injection hrest with h
    subst h
    rfl

/-- C8 witness: the concrete Royalties initiate with escrow E = 5 over
a minimum rent of 2 leaves the Stealth Record at 2 lamports and the
buffer at its minimum rent 3 plus 5. -/
theorem C8_royalty_sweep_witness :
    (⟨init_fresh_buffer exInitAccounts, 8, 2, 97⟩ : InitState).stealth_lamports =
      exInitAccounts.rent.stealth_min ∧
    (⟨init_fresh_buffer exInitAccounts, 8, 2, 97⟩ : InitState).transfer_buffer_lamports =
      exInitAccounts.rent.transfer_buffer_min + 5 :=
  C8_royalty_sweep.1 exInitAccounts 5 ⟨init_fresh_buffer exInitAccounts, 8, 2, 97⟩
    (by decide) (by decide) (by decide) (by decide) (by decide)

/-- C9: a successful slow chunk submission implies that all three
external buffers are owned by the computation service, that the compute
buffer's header records the caller as authority, references exactly the
supplied instruction and input buffers, and reports exactly the expected
instruction count, and that the instruction buffer's body equals the
expected instruction bytes byte for byte. -/
theorem C9_slow_buffer_checks (env : SlowEnv) (chal : ChalFun)
    (a : SlowAccounts) (d : TransferData) (b : CipherKeyTransferBuffer)
    (hok : process_transfer_chunk_slow env chal a d = .ok b) :
    a.instruction_buffer_info.owner = DALEK_ONCHAIN_ID ∧
    a.input_buffer_info.owner = DALEK_ONCHAIN_ID ∧
    a.compute_buffer_info.owner = DALEK_ONCHAIN_ID ∧
    a.compute_header.authority = a.base.authority.key ∧
    a.compute_header.instruction_buffer = a.instruction_buffer_info.key ∧
    a.compute_header.input_buffer = a.input_buffer_info.key ∧
    a.compute_header.instruction_num = env.dslCount ∧
    a.instruction_body = env.dslBytes := by
  rcases (slow_ok_iff env chal a d b).mp hok with ⟨-, hdalek, -, -⟩
  rcases (dalek_buffer_checks_ok_iff env a).mp hdalek with
    ⟨h1, h2, h3, -, h5, h6, h7, -, h9, h10⟩
  exact ⟨h1, h2, h3, h5, h6, h7, h9, h10⟩

/-- C9 witness: the concrete successful slow run satisfies every
delegated-buffer cross-check. -/
theorem C9_slow_buffer_checks_witness :
    exSlowAccounts.instruction_buffer_info.owner = DALEK_ONCHAIN_ID ∧
    exSlowAccounts.input_buffer_info.owner = DALEK_ONCHAIN_ID ∧
    exSlowAccounts.compute_buffer_info.owner = DALEK_ONCHAIN_ID ∧
    exSlowAccounts.compute_header.authority = exSlowAccounts.base.authority.key ∧
    exSlowAccounts.compute_header.instruction_buffer =
      exSlowAccounts.instruction_buffer_info.key ∧
    exSlowAccounts.compute_header.input_buffer =
      exSlowAccounts.input_buffer_info.key ∧
    exSlowAccounts.compute_header.instruction_num = exEnv.dslCount ∧
    exSlowAccounts.instruction_body = exEnv.dslBytes :=
  C9_slow_buffer_checks exEnv exChal exSlowAccounts exTransferData
    (chunk_mutation exChunkAccounts exTransferData) (by decide)

/-- C4: a successful slow chunk submission implies its input buffer's
eleven scalar windows equal, in order, the canonical encodings of
[sh_1, -c, -1, rh_2, -c, -1, c, -c, sh_1, -rh_2, -1] for the locally
re-derived challenge c; and whenever every check before the scalar
windows passes but the windows differ from that sequence — regardless
of the compute buffer's results, identity included — the operation
fails with the proof-verification error. -/
theorem C4_scalar_windows :
    (∀ (env : SlowEnv) (chal : ChalFun) (a : SlowAccounts)
      (d : TransferData) (b : CipherKeyTransferBuffer),
      process_transfer_chunk_slow env chal a d = .ok b →
      ∃ ep, EqualityProof.from_bytes d.proof = some ep ∧
        a.input_data.scalarWindows =
          (expected_scalars (chal d ep) ep).map ZMod.val) ∧
    (∀ (env : SlowEnv) (chal : ChalFun) (a : SlowAccounts)
      (d : TransferData) (ep : EqualityProof),
      EqualityProof.from_bytes d.proof = some ep →
      chunk_statement_checks a.base d = .ok () →
      dalek_buffer_checks env a = .ok () →
      a.input_data.points = expected_pubkeys d ep →
      a.input_data.scalarWindows ≠
        (expected_scalars (chal d ep) ep).map ZMod.val →
      process_transfer_chunk_slow env chal a d =
        .error .ProofVerificationError) := by
  constructor
  · intro env chal a d b hok
    rcases (slow_ok_iff env chal a d b).mp hok with ⟨-, -, hproof, -⟩
    rcases hp : EqualityProof.from_bytes d.proof with _ | ep
    · rw [slow_proof_checks_none chal a d hp] at hproof
      cases hproof
    · rcases (slow_proof_checks_ok_iff chal a d ep hp).mp hproof with
        ⟨-, hws, -⟩
      exact ⟨ep, rfl, hws⟩
  · intro env chal a d ep hep hstmt hdalek hpoints hws
    have hpc : slow_proof_checks chal a d = .error .ProofVerificationError := by
      unfold slow_proof_checks
      rw [hep]
      simp [hpoints, hws]
    unfold process_transfer_chunk_slow
    rw [hstmt, hdalek, hpc]

/-- C4 witness: the concrete successful slow run has exactly the
expected scalar windows, and the same run with the challenge-scalar
window replaced by a wrong value is rejected with the
proof-verification error even though every multiscalar result in its
compute buffer is the identity. -/
theorem C4_scalar_windows_witness :
    (∃ ep, EqualityProof.from_bytes exTransferData.proof = some ep ∧
      exSlowAccounts.input_data.scalarWindows =
        (expected_scalars (exChal exTransferData ep) ep).map ZMod.val) ∧
    process_transfer_chunk_slow exEnv exChal exTamperedSlowAccounts
      exTransferData = .error .ProofVerificationError :=
  ⟨C4_scalar_windows.1 exEnv exChal exSlowAccounts exTransferData
      (chunk_mutation exChunkAccounts exTransferData) (by decide),
   C4_scalar_windows.2 exEnv exChal exTamperedSlowAccounts exTransferData exEq
      (by decide) (by decide) (by decide) (by decide) (by decide)⟩

/-- C1 counterexample: the fast chunk submission succeeds on concrete
records that pass the owner, discriminator, holder and back-reference
checks but sit at addresses different from the deterministic addresses
derived from their declared seeds — so submit-chunk does not enforce
the address recomputation the claim asserts. -/
theorem C1_counterexample :
    process_transfer_chunk exChal exMisplacedAccounts exTransferData =
      .ok (chunk_mutation exMisplacedAccounts exTransferData) ∧
    exMisplacedAccounts.stealth_info.key ≠
      get_stealth_address exMisplacedAccounts.stealth_data.mint ∧
    exMisplacedAccounts.transfer_buffer_info.key ≠
      get_transfer_buffer_address
        exMisplacedAccounts.transfer_buffer_data.wallet_pk
        exMisplacedAccounts.stealth_data.mint :=
  ⟨by decide, by decide, by decide⟩

/-- C1 amended: every record load by submit-chunk (fast and slow) and
finalize enforces the program-ownership and discriminator checks, and
these operations additionally require the caller to be the recorded
holder and the buffer to back-reference the Stealth Record's address;
the deterministic-address recomputation, however, is enforced at
initiate (for the Stealth Record, the key registration and the new
Transfer Buffer), not at submit-chunk or finalize. -/
theorem C1_amended :
    (∀ (chal : ChalFun) (a : ChunkAccounts) (d : TransferData)
      (b : CipherKeyTransferBuffer),
      process_transfer_chunk chal a d = .ok b →
      from_account_info_ok a.transfer_buffer_info a.transfer_buffer_data.key
        STEALTH_PROGRAM_ID .CipherKeyTransferBufferV1 ∧
      from_account_info_ok a.stealth_info a.stealth_data.key
        STEALTH_PROGRAM_ID .StealthAccountV1 ∧
      validate_transfer_buffer_ok a.transfer_buffer_data a.stealth_data
        a.authority.key a.stealth_info.key) ∧
    (∀ (env : SlowEnv) (chal : ChalFun) (a : SlowAccounts)
      (d : TransferData) (b : CipherKeyTransferBuffer),
      process_transfer_chunk_slow env chal a d = .ok b →
      from_account_info_ok a.base.transfer_buffer_info
        a.base.transfer_buffer_data.key STEALTH_PROGRAM_ID
        .CipherKeyTransferBufferV1 ∧
      from_account_info_ok a.base.stealth_info a.base.stealth_data.key
        STEALTH_PROGRAM_ID .StealthAccountV1 ∧
      validate_transfer_buffer_ok a.base.transfer_buffer_data
        a.base.stealth_data a.base.authority.key a.base.stealth_info.key) ∧
    (∀ (a : FiniAccounts) (s : FiniState),
      process_fini_transfer a = .ok s →
      from_account_info_ok a.transfer_buffer_info a.transfer_buffer_data.key
        STEALTH_PROGRAM_ID .CipherKeyTransferBufferV1 ∧
      from_account_info_ok a.stealth_info a.stealth_data.key
        STEALTH_PROGRAM_ID .StealthAccountV1 ∧
      validate_transfer_buffer_ok a.transfer_buffer_data a.stealth_data
        a.authority.key a.stealth_info.key) ∧
    (∀ (a : InitAccounts) (s : InitState),
      process_init_transfer a = .ok s →
      a.stealth_info.owner = STEALTH_PROGRAM_ID ∧
      a.stealth_data.key = Key.StealthAccountV1 ∧
      get_stealth_address a.mint_info.key = a.stealth_info.key ∧
      get_elgamal_pubkey_address a.recipient_info.key a.mint_info.key =
        a.recipient_elgamal_info.key ∧
      get_transfer_buffer_address a.recipient_info.key a.mint_info.key =
        a.transfer_buffer_info.key) := by
  refine ⟨?_, ?_, ?_, ?_⟩
  · intro chal a d b hok
    rcases (chunk_ok_iff chal a d b).mp hok with ⟨hc, -, -⟩
    rcases (chunk_statement_checks_ok_iff a d).mp hc with ⟨-, h2, h3, h4, -⟩
    exact ⟨h2, h3, h4⟩
  · intro env chal a d b hok
    rcases (slow_ok_iff env chal a d b).mp hok with ⟨hc, -, -, -⟩
    rcases (chunk_statement_checks_ok_iff a.base d).mp hc with ⟨-, h2, h3, h4, -⟩
    exact ⟨h2, h3, h4⟩
  · intro a s hok
    rcases (fini_ok_iff a s).mp hok with ⟨hg, -, -, -⟩
    rcases (fini_gate_ok_iff a).mp hg with ⟨-, h2, h3, h4, -⟩
    exact ⟨h2, h3, h4⟩
  · intro a s hok
    unfold process_init_transfer at hok
    simp only [guard_ok_iff] at hok
    obtain ⟨-, -, -, h4, -, -, -, h8, h9, h10, -, h12, -⟩ := hok
    rw [not_ne_iff] at h4 h8 h10 h12
    rw [not_not] at h9
    exact ⟨h4, h9.2, h8, h10, h12⟩

/-- C1 amended witness: the four operations, run to success on concrete
inputs, satisfy the stated owner, discriminator, holder, back-reference
and (for initiate) address-derivation facts. -/
theorem C1_amended_witness :
    (from_account_info_ok exChunkAccounts.transfer_buffer_info
        exChunkAccounts.transfer_buffer_data.key STEALTH_PROGRAM_ID
        .CipherKeyTransferBufferV1 ∧
      from_account_info_ok exChunkAccounts.stealth_info
        exChunkAccounts.stealth_data.key STEALTH_PROGRAM_ID
        .StealthAccountV1 ∧
      validate_transfer_buffer_ok exChunkAccounts.transfer_buffer_data
        exChunkAccounts.stealth_data exChunkAccounts.authority.key
        exChunkAccounts.stealth_info.key) ∧
    (from_account_info_ok exSlowAccounts.base.transfer_buffer_info
        exSlowAccounts.base.transfer_buffer_data.key STEALTH_PROGRAM_ID
        .CipherKeyTransferBufferV1 ∧
      from_account_info_ok exSlowAccounts.base.stealth_info
        exSlowAccounts.base.stealth_data.key STEALTH_PROGRAM_ID
        .StealthAccountV1 ∧
      validate_transfer_buffer_ok exSlowAccounts.base.transfer_buffer_data
        exSlowAccounts.base.stealth_data exSlowAccounts.base.authority.key
        exSlowAccounts.base.stealth_info.key) ∧
    (from_account_info_ok exFiniAccounts.transfer_buffer_info
        exFiniAccounts.transfer_buffer_data.key STEALTH_PROGRAM_ID
        .CipherKeyTransferBufferV1 ∧
      from_account_info_ok exFiniAccounts.stealth_info
        exFiniAccounts.stealth_data.key STEALTH_PROGRAM_ID
        .StealthAccountV1 ∧
      validate_transfer_buffer_ok exFiniAccounts.transfer_buffer_data
        exFiniAccounts.stealth_data exFiniAccounts.authority.key
        exFiniAccounts.stealth_info.key) ∧
    (exInitAccounts.stealth_info.owner = STEALTH_PROGRAM_ID ∧
      exInitAccounts.stealth_data.key = Key.StealthAccountV1 ∧
      get_stealth_address exInitAccounts.mint_info.key =
        exInitAccounts.stealth_info.key ∧
      get_elgamal_pubkey_address exInitAccounts.recipient_info.key
        exInitAccounts.mint_info.key = exInitAccounts.recipient_elgamal_info.key ∧
      get_transfer_buffer_address exInitAccounts.recipient_info.key
        exInitAccounts.mint_info.key = exInitAccounts.transfer_buffer_info.key) :=
  ⟨C1_amended.1 exChal exChunkAccounts exTransferData
      (chunk_mutation exChunkAccounts exTransferData) (by decide),
   C1_amended.2.1 exEnv exChal exSlowAccounts exTransferData
      (chunk_mutation exChunkAccounts exTransferData) (by decide),
   C1_amended.2.2.1 exFiniAccounts
      ⟨fini_stealth_after exFiniAccounts, 17, 0⟩ (by decide),
   C1_amended.2.2.2 exInitAccounts
      ⟨init_fresh_buffer exInitAccounts, 8, 2, 97⟩ (by decide)⟩

/-- C3: for every statement and parseable equality proof, with the
three external buffers correctly derived for that statement and proof
(buffers owned by the computation service, honest header, the expected
instruction body, the honest input buffer, and compute results actually
produced by the DSL program on that input), the slow chunk path returns
exactly what the fast chunk path returns: the two verifiers accept and
reject together, and on acceptance both perform the identical buffer
mutation. -/
theorem C3_fast_slow_agree (env : SlowEnv) (chal : ChalFun)
    (base : ChunkAccounts) (iinfo pinfo cinfo : AccountMeta)
    (d : TransferData) (ep : EqualityProof)
    (hep : EqualityProof.from_bytes d.proof = some ep)
    (hio : iinfo.owner = DALEK_ONCHAIN_ID)
    (hpo : pinfo.owner = DALEK_ONCHAIN_ID)
    (hco : cinfo.owner = DALEK_ONCHAIN_ID)
    (hhs : 128 ≤ env.headerSize)
    (hcnt : env.dslCount < 2 ^ 32) :
    process_transfer_chunk_slow env chal
      (honest_slow_accounts env chal base iinfo pinfo cinfo d ep) d =
      process_transfer_chunk chal base d := by
  have hbase :
      (honest_slow_accounts env chal base iinfo pinfo cinfo d ep).base = base :=
    rfl
  have hdalek : dalek_buffer_checks env
      (honest_slow_accounts env chal base iinfo pinfo cinfo d ep) = .ok () := by
    rw [dalek_buffer_checks_ok_iff]
    exact ⟨hio, hpo, hco, hhs, rfl, rfl, rfl, hcnt, rfl, rfl⟩
  have hresults :
      (honest_slow_accounts env chal base iinfo pinfo cinfo d ep).compute_results =
        (ep.sh_1 * d.transfer_public_keys.src_pubkey -
          chal d ep * COMPRESSED_H - ep.Y_0,
         ep.rh_2 * d.transfer_public_keys.dst_pubkey -
          chal d ep * d.dst_cipher_key_chunk_ct.handle - ep.Y_1,
         chal d ep * d.dst_cipher_key_chunk_ct.commitment -
          chal d ep * d.src_cipher_key_chunk_ct.commitment +
          ep.sh_1 * d.src_cipher_key_chunk_ct.handle -
          ep.rh_2 * COMPRESSED_H - ep.Y_2) :=
    dsl_results_honest chal d ep
  have hverify : TransferProof.verify chal d = true ↔
      (ep.sh_1 * d.transfer_public_keys.src_pubkey -
        chal d ep * COMPRESSED_H - ep.Y_0 = 0 ∧
       ep.rh_2 * d.transfer_public_keys.dst_pubkey -
        chal d ep * d.dst_cipher_key_chunk_ct.handle - ep.Y_1 = 0 ∧
       chal d ep * d.dst_cipher_key_chunk_ct.commitment -
        chal d ep * d.src_cipher_key_chunk_ct.commitment +
        ep.sh_1 * d.src_cipher_key_chunk_ct.handle -
        ep.rh_2 * COMPRESSED_H - ep.Y_2 = 0) := by
    unfold TransferProof.verify
    rw [hep]
    simp
    tauto
  have hpc := slow_proof_checks_eq chal
    (honest_slow_accounts env chal base iinfo pinfo cinfo d ep) d ep hep
    rfl rfl rfl
  rw [hresults] at hpc
  unfold process_transfer_chunk_slow process_transfer_chunk
  rw [hbase]
  rcases hstmt : chunk_statement_checks base d with e | u
  · rfl
  · cases u
    rw [hdalek, hpc]
    by_cases hv :
        (ep.sh_1 * d.transfer_public_keys.src_pubkey -
          chal d ep * COMPRESSED_H - ep.Y_0 = 0 ∧
         ep.rh_2 * d.transfer_public_keys.dst_pubkey -
          chal d ep * d.dst_cipher_key_chunk_ct.handle - ep.Y_1 = 0 ∧
         chal d ep * d.dst_cipher_key_chunk_ct.commitment -
          chal d ep * d.src_cipher_key_chunk_ct.commitment +
          ep.sh_1 * d.src_cipher_key_chunk_ct.handle -
          ep.rh_2 * COMPRESSED_H - ep.Y_2 = 0)
    · rw [if_pos (by simpa using hv), hverify.mpr hv]
      simp
    · rw [if_neg (by simpa using hv)]
      have h' : ¬ TransferProof.verify chal d = true := fun h => hv (hverify.mp h)
      rw [Bool.not_eq_true] at h'
      rw [h']
      simp

/-- C3 witness: on the concrete statement and proof, with honestly
derived buffers, the slow path returns exactly what the fast path
returns. -/
theorem C3_fast_slow_agree_witness :
    process_transfer_chunk_slow exEnv exChal exSlowAccounts exTransferData =
      process_transfer_chunk exChal exChunkAccounts exTransferData :=
  C3_fast_slow_agree exEnv exChal exChunkAccounts
    ⟨50, DALEK_ONCHAIN_ID, 0⟩ ⟨51, DALEK_ONCHAIN_ID, 0⟩
    ⟨52, DALEK_ONCHAIN_ID, 0⟩ exTransferData exEq
    (by decide) (by decide) (by decide) (by decide) (by decide) (by decide)

end Claims

end Stealth
